import Mathlib

/-!
# Verification of the news-balance backend extraction and classification pipeline

Shallow embedding of the decision logic of `filter_recent.py` (the
`LiveRotterScraper` class) and `process_articles.py` (the `ArticleProcessor`
class), together with theorems settling the specified properties.

Modelling conventions:
* Python strings are Lean `String`s (both are sequences of Unicode code
  points, so `len`/slicing correspond to `String.length`/`String.take`).
* The SQLite store is modelled as an in-memory list of records; a query that
  may raise is modelled as an `Option` result (`none` = exception raised).
* The external model capability (`anthropic` client) is modelled as an
  oracle function from the prompt string to the response text; call logs
  (lists of prompts actually sent) instrument the stage functions so that
  temporal claims ("stage never executes", "exactly one retry") are statable.
* The `re` regex engine is embedded directly for the three fixed
  date/time search patterns (they are simple enough that Python's
  leftmost-match greedy backtracking semantics can be reproduced exactly);
  `\d` is modelled as the ASCII digits and `\s` as the Unicode whitespace
  characters, which is what the scraped pages contain.  The free-form
  boilerplate-removal substitutions (`re.sub` over `forum_patterns`) are
  modelled as an arbitrary string transformer parameter, universally
  quantified in every theorem that touches them.
-/

/-- Python's substring operator `pat in hay` on lists of characters. -/
def containsSub (hay pat : List Char) : Bool :=
  pat.isPrefixOf hay ||
    match hay with
    | [] => false
    | _ :: t => containsSub t pat

/-- Python's substring operator `pat in hay` on strings. -/
def strContains (hay pat : String) : Bool :=
  containsSub hay.data pat.data

/-- Python's `<=` on strings: lexicographic comparison by code point. -/
def pyStrLe : List Char → List Char → Bool
  | [], _ => true
  | _ :: _, [] => false
  | x :: xs, y :: ys =>
    if x.toNat < y.toNat then true
    else if y.toNat < x.toNat then false
    else pyStrLe xs ys

theorem pyStrLe_trans : ∀ a b c : List Char,
    pyStrLe a b = true → pyStrLe b c = true → pyStrLe a c = true := by
  intro a
  induction a with
  | nil => intro b c _ _; rfl
  | cons x xs ih =>
    intro b c hab hbc
    cases b with
    | nil => simp [pyStrLe] at hab
    | cons y ys =>
      cases c with
      | nil => simp [pyStrLe] at hbc
      | cons z zs =>
        simp only [pyStrLe] at hab hbc ⊢
        rcases Nat.lt_trichotomy x.toNat y.toNat with hxy | hxy | hxy
        · rcases Nat.lt_trichotomy y.toNat z.toNat with hyz | hyz | hyz
          · rw [if_pos (by omega)]
          · rw [if_pos (by omega)]
          · rw [if_neg (by omega), if_pos hyz] at hbc
            exact absurd hbc (by simp)
        · rw [if_neg (by omega), if_neg (by omega)] at hab
          rcases Nat.lt_trichotomy y.toNat z.toNat with hyz | hyz | hyz
          · rw [if_pos (by omega)]
          · rw [if_neg (by omega), if_neg (by omega)] at hbc
            rw [if_neg (by omega), if_neg (by omega)]
            exact ih ys zs hab hbc
          · rw [if_neg (by omega), if_pos hyz] at hbc
            exact absurd hbc (by simp)
        · rw [if_neg (by omega), if_pos hxy] at hab
          exact absurd hab (by simp)

theorem pyStrLe_total : ∀ a b : List Char,
    (pyStrLe a b || pyStrLe b a) = true := by
  intro a
  induction a with
  | nil => intro b; simp [pyStrLe]
  | cons x xs ih =>
    intro b
    cases b with
    | nil => simp [pyStrLe]
    | cons y ys =>
      simp only [pyStrLe]
      rcases Nat.lt_trichotomy x.toNat y.toNat with h | h | h
      · rw [if_pos h]; simp
      · rw [if_neg (by omega), if_neg (by omega), if_neg (by omega),
            if_neg (by omega)]
        exact ih ys
      · rw [if_neg (by omega), if_pos h]; simp; omega

/-- The set of characters Python's `str.strip()` and the regex class `\s`
treat as whitespace. -/
def isPySpace (c : Char) : Bool :=
  c ∈ [' ', '\t', '\n', '\r', '\x0b', '\x0c',
       '\x1c', '\x1d', '\x1e', '\x1f', '\x85', '\xa0',
       ' ', ' ', ' ', ' ', ' ', ' ',
       ' ', ' ', ' ', ' ', ' ', ' ',
       ' ', ' ', ' ', ' ', '　']

/-- Python's `str.strip()`: remove leading and trailing whitespace. -/
def pyStrip (s : String) : String :=
  String.mk (((s.data.dropWhile isPySpace).reverse.dropWhile isPySpace).reverse)

/-- `SELECT COUNT(*) ... WHERE p`: the number of records satisfying `p`. -/
def countWhere {α : Type} (p : α → Bool) (l : List α) : Nat :=
  (l.filter p).length

/-! ## Datetime recovery (`filter_recent.py`, `extract_actual_datetime_from_row`) -/

/-- A `datetime.datetime` value at second granularity (the scraper never
constructs sub-second components; `second` is always 0 for recovered
timestamps). -/
structure PyDateTime where
  year : Nat
  month : Nat
  day : Nat
  hour : Nat
  minute : Nat
  second : Nat
deriving DecidableEq, Repr

/-- Whether `y` is a leap year, as the `datetime` module computes it. -/
def isLeapYear (y : Nat) : Bool :=
  y % 4 == 0 && (y % 100 != 0 || y % 400 == 0)

/-- Number of days in month `m` of year `y`. -/
def daysInMonth (y m : Nat) : Nat :=
  if m = 2 then (if isLeapYear y then 29 else 28)
  else if m = 4 ∨ m = 6 ∨ m = 9 ∨ m = 11 then 30
  else 31

/-- The `datetime(year, month, day, hour, minute)` constructor:
`some` on valid field values, `none` when Python raises `ValueError`. -/
def mkDatetime (year month day hour minute : Nat) : Option PyDateTime :=
  if 1 ≤ year ∧ year ≤ 9999 ∧ 1 ≤ month ∧ month ≤ 12 ∧
     1 ≤ day ∧ day ≤ daysInMonth year month ∧ hour ≤ 23 ∧ minute ≤ 59 then
    some ⟨year, month, day, hour, minute, 0⟩
  else none

/-- Numeric value of an ASCII digit character. -/
def digitVal (c : Char) : Nat := c.toNat - 48

/-- Match `\d{2}` at the head of the character list: exactly two digits,
returning their value and the remaining characters. -/
def parse2Digits : List Char → Option (Nat × List Char)
  | c1 :: c2 :: rest =>
    if c1.isDigit && c2.isDigit then
      some (digitVal c1 * 10 + digitVal c2, rest)
    else none
  | _ => none

/-- Match `\d{1,2}` immediately followed by the literal `lit` at the head of
the character list, with the regex engine's greedy-then-backtrack semantics
(two digits are preferred; since a digit never equals `'.'` or `':'`, the
one-digit alternative can only succeed when the second character is `lit`).
Consumes the literal as well. -/
def parse12DigitsThen (lit : Char) : List Char → Option (Nat × List Char)
  | c1 :: rest1 =>
    if c1.isDigit then
      match rest1 with
      | c2 :: rest2 =>
        if c2.isDigit then
          match rest2 with
          | c3 :: rest3 =>
            if c3 = lit then some (digitVal c1 * 10 + digitVal c2, rest3)
            else none
          | [] => none
        else if c2 = lit then some (digitVal c1, rest2)
        else none
      | [] => none
    else none
  | [] => none

/-- Match the combined pattern
`(\d{1,2})\.(\d{1,2})\.(\d{2})\s+(\d{1,2}):(\d{2})` anchored at the head of
the character list, returning `(day, month, year, hour, minute)`. -/
def matchCombinedAt (cs : List Char) : Option (Nat × Nat × Nat × Nat × Nat) :=
  (parse12DigitsThen '.' cs).bind fun (d, r1) =>
  (parse12DigitsThen '.' r1).bind fun (m, r2) =>
  (parse2Digits r2).bind fun (y, r3) =>
  match r3 with
  | c :: rest =>
    if isPySpace c then
      let r4 := rest.dropWhile isPySpace
      (parse12DigitsThen ':' r4).bind fun (h, r5) =>
      (parse2Digits r5).map fun (mi, _) => (d, m, y, h, mi)
    else none
  | [] => none

/-- `re.search` for the combined pattern: try every start position from the
left, first successful anchor wins (Python's leftmost-match rule). -/
def searchCombined : List Char → Option (Nat × Nat × Nat × Nat × Nat)
  | [] => matchCombinedAt []
  | c :: t =>
    match matchCombinedAt (c :: t) with
    | some r => some r
    | none => searchCombined t

/-- Match the date pattern `(\d{1,2})\.(\d{1,2})\.(\d{2})` anchored at the
head, returning `(day, month, year)`. -/
def matchDateAt (cs : List Char) : Option (Nat × Nat × Nat) :=
  (parse12DigitsThen '.' cs).bind fun (d, r1) =>
  (parse12DigitsThen '.' r1).bind fun (m, r2) =>
  (parse2Digits r2).map fun (y, _) => (d, m, y)

/-- `re.search` for the date pattern. -/
def searchDate : List Char → Option (Nat × Nat × Nat)
  | [] => matchDateAt []
  | c :: t =>
    match matchDateAt (c :: t) with
    | some r => some r
    | none => searchDate t

/-- Match the time pattern `(\d{1,2}):(\d{2})` anchored at the head,
returning `(hour, minute)`. -/
def matchTimeAt (cs : List Char) : Option (Nat × Nat) :=
  (parse12DigitsThen ':' cs).bind fun (h, r1) =>
  (parse2Digits r1).map fun (mi, _) => (h, mi)

/-- `re.search` for the time pattern. -/
def searchTime : List Char → Option (Nat × Nat)
  | [] => matchTimeAt []
  | c :: t =>
    match matchTimeAt (c :: t) with
    | some r => some r
    | none => searchTime t

/-- The fall-through part of `extract_actual_datetime_from_row`, reached when
the combined pattern does not yield a valid timestamp: separate date and time
patterns, then date-only (combined with the current wall-clock time), then
time-only (combined with today's date).  `now` is `datetime.now()`. -/
def extractSeparate (now : PyDateTime) (cs : List Char) : Option PyDateTime :=
  match searchDate cs, searchTime cs with
  | some (d, m, y), some (h, mi) => mkDatetime (2000 + y) m d h mi
  | some (d, m, y), none => mkDatetime (2000 + y) m d now.hour now.minute
  | none, some (h, mi) => mkDatetime now.year now.month now.day h mi
  | none, none => none

/-- `extract_actual_datetime_from_row` (filter_recent.py:359-420): ordered
strategies over the row text; the combined `DD.MM.YY HH:MM` pattern wins when
it matches and forms a valid datetime, otherwise control falls through to the
separate-pattern strategies. -/
def extract_actual_datetime_from_row (now : PyDateTime) (row_text : String) :
    Option PyDateTime :=
  let cs := row_text.data
  match (searchCombined cs).bind
      (fun (d, m, y, h, mi) => mkDatetime (2000 + y) m d h mi) with
  | some dt => some dt
  | none => extractSeparate now cs

/-- `is_within_24_hours` (filter_recent.py:422-431): timestamps are modelled
by their epoch seconds, so `(now - article_datetime).total_seconds()` is
`nowSec - artSec`; a missing (`None`) datetime is rejected up front. -/
def is_within_24_hours (nowSec : Int) (article_datetime : Option Int) : Bool :=
  match article_datetime with
  | none => false
  | some artSec => nowSec - artSec ≤ 86400

example : searchCombined "שלום 1.2.25 3:45".data = some (1, 2, 25, 3, 45) := by
  decide

example :
    extract_actual_datetime_from_row ⟨2025, 10, 12, 9, 30, 0⟩ "1.2.25 3:45"
      = some ⟨2025, 2, 1, 3, 45, 0⟩ := by decide

/-! ## Batch finalization and sorting (`filter_recent.py`, `scrape_live_news`) -/

/-- The ASCII digit character for `d % 10`-style values (`d ≤ 9` in every
use; larger inputs are clamped to `'9'`, a case that never arises for
`datetime` field values). -/
def digitChar (d : Nat) : Char :=
  if d = 0 then '0' else if d = 1 then '1' else if d = 2 then '2'
  else if d = 3 then '3' else if d = 4 then '4' else if d = 5 then '5'
  else if d = 6 then '6' else if d = 7 then '7' else if d = 8 then '8'
  else '9'

/-- Zero-padded fixed-width decimal rendering of `a` (width `w`), the
`%0wd` formatting used by `datetime.isoformat`/`strftime` for values that
fit in `w` digits. -/
def padC : Nat → Nat → List Char
  | 0, _ => []
  | w + 1, a => digitChar (a / 10 ^ w) :: padC w (a % 10 ^ w)

theorem digitChar_toNat (d : Nat) (hd : d ≤ 9) : (digitChar d).toNat = 48 + d := by
  interval_cases d <;> rfl

theorem digitChar_isDigitCode (d : Nat) :
    48 ≤ (digitChar d).toNat ∧ (digitChar d).toNat ≤ 57 := by
  unfold digitChar
  split_ifs <;> exact ⟨by decide, by decide⟩

theorem pyStrLe_cons_same (c : Char) (s t : List Char) :
    pyStrLe (c :: s) (c :: t) = pyStrLe s t := by
  simp [pyStrLe]

/-- Lexicographic comparison of equal-width zero-padded numbers agrees with
numeric comparison, deferring to the tails on equality. -/
theorem pyStrLe_padC : ∀ (w a b : Nat) (s t : List Char), a < 10 ^ w → b < 10 ^ w →
    pyStrLe (padC w a ++ s) (padC w b ++ t) =
      (if a < b then true else if b < a then false else pyStrLe s t) := by
  intro w
  induction w with
  | zero =>
    intro a b s t ha hb
    simp only [pow_zero, Nat.lt_one_iff] at ha hb
    subst ha; subst hb
    simp [padC]
  | succ w ih =>
    intro a b s t ha hb
    have hP : 0 < 10 ^ w := Nat.pos_pow_of_pos w (by omega)
    have hqa : a / 10 ^ w ≤ 9 := by
      have := Nat.div_lt_iff_lt_mul (k := 10 ^ w) (x := a) (y := 10) hP
      rw [pow_succ] at ha
      omega
    have hqb : b / 10 ^ w ≤ 9 := by
      have := Nat.div_lt_iff_lt_mul (k := 10 ^ w) (x := b) (y := 10) hP
      rw [pow_succ] at hb
      omega
    have hma := Nat.mod_lt a hP
    have hmb := Nat.mod_lt b hP
    have hda := Nat.div_add_mod a (10 ^ w)
    have hdb := Nat.div_add_mod b (10 ^ w)
    simp only [padC, List.cons_append]
    simp only [pyStrLe, digitChar_toNat _ hqa, digitChar_toNat _ hqb]
    rcases Nat.lt_trichotomy (a / 10 ^ w) (b / 10 ^ w) with hq | hq | hq
    · have hab : a < b := Nat.lt_of_div_lt_div hq
      rw [if_pos (by omega), if_pos hab]
    · rw [if_neg (by omega), if_neg (by omega),
        ih (a % 10 ^ w) (b % 10 ^ w) s t hma hmb]
      have hiff : a < b ↔ a % 10 ^ w < b % 10 ^ w := by
        constructor <;> intro h <;> nlinarith [hda, hdb, hq]
      have hiff2 : b < a ↔ b % 10 ^ w < a % 10 ^ w := by
        constructor <;> intro h <;> nlinarith [hda, hdb, hq]
      by_cases h1 : a < b
      · rw [if_pos (hiff.mp h1), if_pos h1]
      · rw [if_neg (fun hc => h1 (hiff.mpr hc)), if_neg h1]
        by_cases h2 : b < a
        · rw [if_pos (hiff2.mp h2), if_pos h2]
        · rw [if_neg (fun hc => h2 (hiff2.mpr hc)), if_neg h2]
    · have hab : b < a := Nat.lt_of_div_lt_div hq
      rw [if_neg (by omega), if_pos (by omega), if_neg (by omega), if_pos hab]

/-- `datetime.isoformat()` for second-granularity values (the scraper's
recovered timestamps have no sub-second part, so no `.ffffff` suffix is
produced). -/
def isoformat (dt : PyDateTime) : String :=
  String.mk (padC 4 dt.year ++ ('-' :: (padC 2 dt.month ++ ('-' :: (padC 2 dt.day
    ++ ('T' :: (padC 2 dt.hour ++ (':' :: (padC 2 dt.minute
    ++ (':' :: padC 2 dt.second))))))))))

/-- `datetime.strftime('%Y-%m-%d %H:%M:%S')`. -/
def strftimeYMDHMS (dt : PyDateTime) : String :=
  String.mk (padC 4 dt.year ++ ('-' :: (padC 2 dt.month ++ ('-' :: (padC 2 dt.day
    ++ (' ' :: (padC 2 dt.hour ++ (':' :: (padC 2 dt.minute
    ++ (':' :: padC 2 dt.second))))))))))

/-- The chronological key of a timestamp: base-100 positional encoding of
its components, so `dtToNat d1 ≤ dtToNat d2` iff `d1` is no later than `d2`
(for in-range component values). -/
def dtToNat (dt : PyDateTime) : Nat :=
  ((((dt.year * 100 + dt.month) * 100 + dt.day) * 100 + dt.hour) * 100
    + dt.minute) * 100 + dt.second

/-- Component bounds under which the padded renderings are faithful
(every value the `datetime` constructor accepts satisfies them). -/
def dtBounded (dt : PyDateTime) : Bool :=
  dt.year ≤ 9999 && dt.month ≤ 99 && dt.day ≤ 99 && dt.hour ≤ 99 &&
    dt.minute ≤ 99 && dt.second ≤ 99

/-- One step of a lexicographic-versus-numeric comparison argument. -/
theorem cmp_step (a b : Nat) (c : Bool) (A B : Nat)
    (h1 : a < b → A ≤ B) (h2 : b < a → ¬ A ≤ B)
    (h3 : a = b → (c = true ↔ A ≤ B)) :
    ((if a < b then true else if b < a then false else c) = true ↔ A ≤ B) := by
  split_ifs with hab hba
  · simp only [true_iff]
    exact h1 hab
  · simp only [Bool.false_eq_true, false_iff]
    exact h2 hba
  · exact h3 (by omega)

set_option maxHeartbeats 1000000 in
/-- Lexicographic comparison of ISO strings is chronological comparison. -/
theorem pyStrLe_isoformat (d1 d2 : PyDateTime)
    (h1 : dtBounded d1 = true) (h2 : dtBounded d2 = true) :
    pyStrLe (isoformat d1).data (isoformat d2).data = true ↔
      dtToNat d1 ≤ dtToNat d2 := by
  simp only [dtBounded, Bool.and_eq_true, decide_eq_true_eq] at h1 h2
  obtain ⟨⟨⟨⟨⟨hy1, hmo1⟩, hd1⟩, hh1⟩, hmi1⟩, hs1⟩ := h1
  obtain ⟨⟨⟨⟨⟨hy2, hmo2⟩, hd2⟩, hh2⟩, hmi2⟩, hs2⟩ := h2
  simp only [isoformat]
  have b4 : ∀ n : Nat, n ≤ 9999 → n < 10 ^ 4 := by intro n h; norm_num; omega
  have b2 : ∀ n : Nat, n ≤ 99 → n < 10 ^ 2 := by intro n h; norm_num; omega
  rw [pyStrLe_padC 4 d1.year d2.year _ _ (b4 _ hy1) (b4 _ hy2),
    pyStrLe_cons_same,
    pyStrLe_padC 2 d1.month d2.month _ _ (b2 _ hmo1) (b2 _ hmo2),
    pyStrLe_cons_same,
    pyStrLe_padC 2 d1.day d2.day _ _ (b2 _ hd1) (b2 _ hd2),
    pyStrLe_cons_same,
    pyStrLe_padC 2 d1.hour d2.hour _ _ (b2 _ hh1) (b2 _ hh2),
    pyStrLe_cons_same,
    pyStrLe_padC 2 d1.minute d2.minute _ _ (b2 _ hmi1) (b2 _ hmi2),
    pyStrLe_cons_same,
    show padC 2 d1.second = padC 2 d1.second ++ [] from (List.append_nil _).symm,
    show padC 2 d2.second = padC 2 d2.second ++ [] from (List.append_nil _).symm,
    pyStrLe_padC 2 d1.second d2.second _ _ (b2 _ hs1) (b2 _ hs2)]
  apply cmp_step _ _ _ _ _ (fun h => by simp only [dtToNat]; omega)
    (fun h => by simp only [dtToNat]; omega)
  intro e1
  apply cmp_step _ _ _ _ _ (fun h => by simp only [dtToNat]; omega)
    (fun h => by simp only [dtToNat]; omega)
  intro e2
  apply cmp_step _ _ _ _ _ (fun h => by simp only [dtToNat]; omega)
    (fun h => by simp only [dtToNat]; omega)
  intro e3
  apply cmp_step _ _ _ _ _ (fun h => by simp only [dtToNat]; omega)
    (fun h => by simp only [dtToNat]; omega)
  intro e4
  apply cmp_step _ _ _ _ _ (fun h => by simp only [dtToNat]; omega)
    (fun h => by simp only [dtToNat]; omega)
  intro e5
  apply cmp_step _ _ _ _ _ (fun h => by simp only [dtToNat]; omega)
    (fun h => by simp only [dtToNat]; omega)
  intro e6
  simp only [pyStrLe, dtToNat, true_iff]
  omega

/-- One finalized batch entry of `scrape_live_news` (only the fields the
sort step reads). -/
structure FinalItem where
  title : String
  date_time : String
  actual_datetime : String
deriving DecidableEq, Repr

/-- The per-item datetime finalization of `scrape_live_news`
(filter_recent.py:731-753): prefer the article-page timestamp, fall back to
the main-page timestamp, else the `'Unknown'` markers.  Returns the
`(date_time, actual_datetime)` string pair stored in the item. -/
def finalize_datetime (article_page_dt main_page_dt : Option PyDateTime) :
    String × String :=
  match article_page_dt with
  | some dt => (strftimeYMDHMS dt, isoformat dt)
  | none =>
    match main_page_dt with
    | some dt => (strftimeYMDHMS dt, isoformat dt)
    | none => ("Unknown", "Unknown")

/-- The comparator realizing
`events_with_content.sort(key=lambda x: x.get('actual_datetime', ''), reverse=True)`:
keep `a` before `b` iff `a`'s key is `≥` `b`'s key (stable descending order
by the `actual_datetime` string). -/
def sortKeyLe (a b : FinalItem) : Bool :=
  pyStrLe b.actual_datetime.data a.actual_datetime.data

/-- The batch sort step of `scrape_live_news` (filter_recent.py:774). -/
def sortStep (items : List FinalItem) : List FinalItem :=
  items.mergeSort sortKeyLe

/-- Whether a string begins with an ASCII digit. -/
def firstCharDigit (s : String) : Bool :=
  match s.data with
  | [] => false
  | c :: _ => 48 ≤ c.toNat && c.toNat ≤ 57

theorem firstCharDigit_isoformat (dt : PyDateTime) :
    firstCharDigit (isoformat dt) = true := by
  have h := digitChar_isDigitCode (dt.year / 10 ^ 3)
  simp only [firstCharDigit, isoformat, padC, List.cons_append]
  simp only [Bool.and_eq_true, decide_eq_true_eq]
  omega

/-- `'Unknown'` compares strictly above every digit-initial string
(`'U'` has code point 85, digits end at 57), so it is NOT `≤` such a
string. -/
theorem unknown_not_le_digit (s : String) (h : firstCharDigit s = true) :
    pyStrLe "Unknown".data s.data = false := by
  unfold firstCharDigit at h
  match hs : s.data with
  | [] => rw [hs] at h; simp at h
  | c :: rest =>
    rw [hs] at h
    simp only [Bool.and_eq_true, decide_eq_true_eq] at h
    show pyStrLe ('U' :: "nknown".data) (c :: rest) = false
    simp only [pyStrLe]
    rw [if_neg (by simp; omega), if_pos (by simp; omega)]

theorem sortKeyLe_trans : ∀ a b c : FinalItem,
    sortKeyLe a b = true → sortKeyLe b c = true → sortKeyLe a c = true :=
  fun _ _ _ hab hbc => pyStrLe_trans _ _ _ hbc hab

theorem sortKeyLe_total : ∀ a b : FinalItem,
    (sortKeyLe a b || sortKeyLe b a) = true := by
  intro a b
  have := pyStrLe_total b.actual_datetime.data a.actual_datetime.data
  unfold sortKeyLe
  rcases Bool.or_eq_true_iff.mp this with h | h <;> simp [h]

/-! ## Persistence and deduplication (`filter_recent.py`) -/

/-- One row of the `news_items` table (the columns the dedup logic reads). -/
structure NewsItemRow where
  title : String
  url : String
  hash_id : String
deriving DecidableEq, Repr

/-- `generate_article_hash` (filter_recent.py:79-82): the digest of the
UTF-8 encoding of `f"{title}{url}"` — title and URL concatenated with no
separator.  The MD5 compression itself is external to the decision logic,
so it is a parameter `md5hex`; every theorem about the hash is universally
quantified over it. -/
def generate_article_hash (md5hex : ByteArray → String) (title url : String) :
    String :=
  md5hex ((title ++ url).toUTF8)

/-- `is_article_exists` (filter_recent.py:84-95):
`SELECT COUNT(*) FROM news_items WHERE hash_id = ?` then `count > 0`. -/
def is_article_exists (db : List NewsItemRow) (h : String) : Bool :=
  0 < countWhere (fun r => r.hash_id == h) db

/-- `save_article_to_db` (filter_recent.py:138-182): compute the hash,
skip (returning `False`) when a row with that hash already exists, else
insert the row and return `True`.  Returns the updated table and the
success flag. -/
def save_article_to_db (md5hex : ByteArray → String) (db : List NewsItemRow)
    (title url : String) : List NewsItemRow × Bool :=
  let h := generate_article_hash md5hex title url
  if is_article_exists db h then (db, false)
  else (db ++ [⟨title, url, h⟩], true)

/-- `check_article_exists_in_db` (filter_recent.py:258-281).  The two
`COUNT(*)` lookups are parameters returning `Option Nat` (`none` models the
query raising); the `try/except` wrapper turns a raised lookup into a
`False` return. -/
def check_article_exists_in_db (countByUrl countByTitle : String → Option Nat)
    (title url : String) : Bool :=
  match countByUrl url with
  | none => false
  | some url_count =>
    if 0 < url_count then true
    else
      match countByTitle title with
      | none => false
      | some title_count => 0 < title_count

/-- The URL lookup over an in-memory `news_items` table (the non-raising
instantiation of the lookup capability). -/
def dbCountByUrl (db : List NewsItemRow) : String → Option Nat :=
  fun url => some (countWhere (fun r => r.url == url) db)

/-- The title lookup over an in-memory `news_items` table. -/
def dbCountByTitle (db : List NewsItemRow) : String → Option Nat :=
  fun title => some (countWhere (fun r => r.title == title) db)

/-! ## Content cleaner (`filter_recent.py`, `clean_article_content`) -/

/-- The navigation-keyword denylist of the line filter inside
`clean_article_content` (filter_recent.py:648-659). -/
def cleanNavKeywords : List String :=
  ["בית המדרש", "הרגע קניתי", "בני ה-20", "סקופים", "אשכול מספר",
   "בחר פורום", "נושא #", "חבר מתאריך", "הודעות", "מדרגים",
   "נקודות", "ראה משוב", "מנהל", "סגן המנהל", "מפקח",
   "עיתונאי", "צל\"ש", "כותרות", "שעה", "הכותב", "אל לובי",
   "החופשה הבאה", "לוח שנה עברי", "Downloads", "שיתוף",
   "מוזיקה", "סרטים", "צילום", "מוטוריקה", "לובי", "חופשה",
   "Booking.com", "Kiwi", "Skyscanner", "TripAdvisor",
   "גירסת הדפסה", "קבוצות דיון", "אל לובי הפורומים",
   "החופשה הבאה שלך מתחילה כאן", "--------",
   "ביקורת תקשורת", "עיתונות זרה", "הפורום האקסקלוסיבי",
   "ביטקוין ומטבעות קריפטו", "כושר ופיתוח גוף"]

/-- `re.match(r'^\d{2}:\d{2}$', line)`: the line is exactly a bare time. -/
def isTimeOnlyLine : List Char → Bool
  | [a, b, c, d, e] => a.isDigit && b.isDigit && c = ':' && d.isDigit && e.isDigit
  | _ => false

/-- `re.match(r'^\d{2}\.\d{2}\.\d{2}$', line)`: exactly a bare date. -/
def isDateOnlyLine : List Char → Bool
  | [a, b, c, d, e, f, g, h] =>
    a.isDigit && b.isDigit && c = '.' && d.isDigit && e.isDigit && f = '.' &&
      g.isDigit && h.isDigit
  | _ => false

/-- `re.match(r'^[א-ת]+$', line)`: a single run of Hebrew letters. -/
def isHebrewOnlyLine (cs : List Char) : Bool :=
  !cs.isEmpty && cs.all (fun c => 1488 ≤ c.toNat && c.toNat ≤ 1514)

/-- `re.match` for the pure-punctuation class `[,'"]+`. -/
def isPunctOnlyLine (cs : List Char) : Bool :=
  !cs.isEmpty && cs.all (fun c => c = ',' || c = '\'' || c = '"')

/-- The per-line keep decision of `clean_article_content`
(filter_recent.py:644-670): `false` means the line is skipped.  The checks
run on the stripped line but the original line is what gets kept. -/
def keepLine (line : String) : Bool :=
  let trimmed := pyStrip line
  !(decide (trimmed.length < 10) ||
    cleanNavKeywords.any (fun k => strContains trimmed k) ||
    isTimeOnlyLine trimmed.data ||
    isDateOnlyLine trimmed.data ||
    isHebrewOnlyLine trimmed.data ||
    isPunctOnlyLine trimmed.data)

/-- `clean_article_content` (filter_recent.py:611-684).  The two batches of
`re.sub` rewrites (the `forum_patterns` loop, and the three final-cleanup
substitutions) are abstracted as the transformer parameters `subForum` and
`subFinal`: the theorems about this function hold for every behavior of
those substitutions.  Everything else — the empty-input placeholder, the
line filter, the join/strip, the 1000-character truncation with `'...'`
appended, and the final falsy-to-placeholder fallback — is embedded
directly. -/
def clean_article_content (subForum subFinal : String → String)
    (content : String) : String :=
  if content = "" then "אין תוכן זמין"
  else
    let c1 := subForum content
    let meaningful_lines := (c1.splitOn "\n").filter keepLine
    let c2 := pyStrip (String.intercalate "\n" meaningful_lines)
    let c3 := subFinal c2
    let c4 := if 1000 < c3.length then String.mk (c3.data.take 1000) ++ "..."
              else c3
    if c4 = "" then "תוכן זמין בקישור המקורי" else c4

/-! ## Classification pipeline (`process_articles.py`, `ArticleProcessor`) -/

/-- The Stage-1 relevance prompt (`self.relevance_prompt.format(...)`,
process_articles.py:32-45), with the title and the first 2000 characters of
the content substituted. -/
def relevance_prompt (title content : String) : String :=
  "\nאתה עיתונאי ישראלי מנוסה. קרא את הכתבה הבאה וענה בקצרה:\n\n" ++
  "1. האם זה נושא פוליטי או חברתי שנוי במחלוקת בישראל?\n" ++
  "2. אם כן - מה סוג המחלוקת?\n" ++
  "3. אם לא - מה קטגוריית הכתבה?\n\n" ++
  "שים לב: משלים כמו \"כדור השלג\" או \"משחקי כוח\" הם בדרך כלל פוליטיים, לא ספורט.\n\n" ++
  "ענה בקצרה - עד 50 מילים.\n\n" ++
  "כותרת: " ++ title ++ "\nתוכן: " ++ content ++ "\n"

/-- The Stage-2 research prompt (process_articles.py:48-65). -/
def research_prompt (main_topic article_summary : String) : String :=
  "\nחשוב מאוד: בצע חיפוש מעמיק באינטרנט על הנושא הזה עכשיו!\n\n" ++
  "חפש בעברית:\n" ++
  "1. \"" ++ main_topic ++ "\"\n" ++
  "2. \"" ++ main_topic ++ " + מחלוקת\"\n" ++
  "3. \"" ++ main_topic ++ " + עמדות שונות\"\n\n" ++
  "חובה למצוא:\n- לפחות 3 מקורות שונים\n- דעות מנוגדות מהתקשורת הישראלית\n" ++
  "- הצהרות רשמיות אם יש\n\n" ++
  "אם לא מוצא מידע נוסף - כתוב במפורש \"לא מצאתי מידע נוסף\"\n\n" ++
  "נושא: " ++ main_topic ++ "\nמידע ראשוני: " ++ article_summary ++ "\n"

/-- The intensified Stage-2 retry prompt (process_articles.py:197). -/
def research_retry_prompt (main_topic : String) : String :=
  "בצע חיפוש מעמיק יותר על: " ++ main_topic ++ ". חובה למצוא מקורות אמיתיים!"

/-- The Stage-3 analysis prompt (process_articles.py:68-84), with the first
2000 characters of the original text and the research findings substituted. -/
def analysis_prompt (original_text research_findings : String) : String :=
  "\nכתוב ניתוח מאוזן תוך שילוב המחקר:\n\n" ++
  "כתוב כתבה עיתונאית זורמת וקריאה שתכלול את כל המידע החשוב מהמחקר, " ++
  "אבל בלי כותרות משנה או חלוקה לסעיפים. הכתבה צריכה להיות טקסט רציף וזורם שכולל:\n\n" ++
  "- פתיח שמציג את המחלוקת\n- עובדות מוסכמות\n- הצגת כל הצדדים\n" ++
  "- מה שחסר מהדיווח\n- הקשר רחב\n- סיכום מאוזן\n\n" ++
  "חשוב: אל תכתוב כותרות כמו \"כותרת אובייקטיבית\", \"פתיח\", \"עובדות מוסכמות\" וכו'. כתוב טקסט רציף וזורם.\n\n" ++
  "טקסט מקורי: " ++ original_text ++ "\nממצאי מחקר: " ++ research_findings ++ "\n"

/-- The Stage-4 journalistic prompt (process_articles.py:87-99). -/
def journalistic_prompt (technical_analysis : String) : String :=
  "\nהפך את הניתוח הטכני הזה לכתבה עיתונאית זורמת וקריאה:\n\n" ++
  "- שפה עיתונאית נעימה\n- מעברים חלקים\n- ללא ביטויים טכניים\n" ++
  "- מעניינת לקורא הממוצע\n- טקסט רציף וזורם בלי כותרות משנה או חלוקה לסעיפים\n\n" ++
  "חשוב: אל תכתוב כותרות כמו \"כותרת אובייקטיבית\", \"פתיח\", \"עובדות מוסכמות\", " ++
  "\"הצגת כל הצדדים\", \"מה שחסר מהדיווח\", \"הקשר רחב\", \"סיכום מאוזן\". כתוב טקסט רציף וזורם.\n\n" ++
  "ניתוח טכני: " ++ technical_analysis ++ "\n"

/-- The fixed quality-indicator phrases of the Stage-2 gate
(process_articles.py:139-143). -/
def quality_indicators : List String :=
  ["מקורות שנמצאו", "לפי דיווח", "על פי", "מתוך כתבה",
   "הצהרה של", "לדברי", "בעיתון", "באתר"]

/-- `verify_research_quality` (process_articles.py:137-148): pass iff some
quality indicator occurs, the result is at least 150 characters, and the
"nothing found" marker does not occur. -/
def verify_research_quality (research_result : String) : Bool :=
  let has_sources := quality_indicators.any (fun i => strContains research_result i)
  let is_too_short := decide (research_result.length < 150)
  let is_generic := strContains research_result "לא מצאתי"
  has_sources && !is_too_short && !is_generic

/-- The fixed non-relevance category keywords of Stage 1
(process_articles.py:168). -/
def non_relevant_keywords : List String :=
  ["ספורט", "בידור", "עסקים", "שגרתי", "כלכלי"]

/-- The Stage-1 decision over the model's response text
(process_articles.py:169): relevant iff no denylisted keyword occurs. -/
def relevance_decision (relevance_text : String) : Bool :=
  !(non_relevant_keywords.any (fun keyword => strContains relevance_text keyword))

/-- `check_article_relevance` (process_articles.py:150-175) on the success
path of the model call: returns `(is_relevant, relevance_text)` and the log
of prompts sent.  `oracle` is the model capability (prompt ↦ response). -/
def check_article_relevance (oracle : String → String)
    (article_content article_title : String) : (Bool × String) × List String :=
  let prompt := relevance_prompt article_title (article_content.take 2000)
  let relevance_text := oracle prompt
  ((relevance_decision relevance_text, relevance_text), [prompt])

/-- `research_topic` (process_articles.py:177-209) on the success path:
one research call; if the quality gate rejects the result, exactly one
retry call whose result is returned without being re-checked.  Returns the
research findings and the log of prompts sent. -/
def research_topic (oracle : String → String)
    (main_topic article_summary : String) : String × List String :=
  let prompt := research_prompt main_topic article_summary
  let research_result := oracle prompt
  if verify_research_quality research_result then (research_result, [prompt])
  else
    let retry_prompt := research_retry_prompt main_topic
    (oracle retry_prompt, [prompt, retry_prompt])

/-- `create_technical_analysis` (process_articles.py:211-230) on the
success path. -/
def create_technical_analysis (oracle : String → String)
    (original_text research_findings : String) : String × List String :=
  let prompt := analysis_prompt (original_text.take 2000) research_findings
  (oracle prompt, [prompt])

/-- `create_journalistic_article` (process_articles.py:232-250) on the
success path. -/
def create_journalistic_article (oracle : String → String)
    (technical_analysis : String) : String × List String :=
  let prompt := journalistic_prompt technical_analysis
  (oracle prompt, [prompt])

/-- The `analysis` sub-dictionary stored for a non-relevant article
(process_articles.py:263-267). -/
structure RelevanceAnalysis where
  relevant : Bool
  reason : String
  category : String
deriving DecidableEq, Repr

/-- The result dictionary of `analyze_article_with_anthropic`: optional
fields model keys that may be absent. -/
structure AnalysisResult where
  analysis : Option RelevanceAnalysis
  technical_analysis : Option String
  journalistic_article : Option String
  research_notes : Option String
  model_used : String
  processed_at : String
  is_relevant : Bool
deriving DecidableEq, Repr

/-- `analyze_article_with_anthropic` (process_articles.py:252-313): the
4-stage pipeline.  `now` stands for `datetime.now().isoformat()`.  Returns
the analysis result and the full log of model prompts sent, in order. -/
def analyze_article_with_anthropic (oracle : String → String) (now : String)
    (article_content article_title : String) : AnalysisResult × List String :=
  let stage1 := check_article_relevance oracle article_content article_title
  let is_relevant := stage1.1.1
  let relevance_reason := stage1.1.2
  if !is_relevant then
    ({ analysis := some ⟨false, relevance_reason, "non-political"⟩,
       technical_analysis := none,
       journalistic_article := none,
       research_notes := none,
       model_used := "claude-3-haiku-20240307",
       processed_at := now,
       is_relevant := false }, stage1.2)
  else
    let main_topic := article_title
    let article_summary := article_content.take 500
    let stage2 := research_topic oracle main_topic article_summary
    let research_findings := stage2.1
    let stage3 := create_technical_analysis oracle article_content research_findings
    let technical_analysis := stage3.1
    let stage4 := create_journalistic_article oracle technical_analysis
    let final_article := stage4.1
    ({ analysis := none,
       technical_analysis := some technical_analysis,
       journalistic_article := some final_article,
       research_notes := some research_findings,
       model_used := "claude-3-haiku-20240307",
       processed_at := now,
       is_relevant := true }, stage1.2 ++ stage2.2 ++ stage3.2 ++ stage4.2)

/-- One row of `news_items` as seen by the processor: the processing state
column and the stored analysis payload. -/
structure ProcRow where
  id : Nat
  isProcessed : Nat
  process_data : Option AnalysisResult
deriving DecidableEq, Repr

/-- `update_article_as_processed` (process_articles.py:346-374): relevant
articles get `isProcessed = 1`, non-relevant ones `isProcessed = 2`; the
analysis payload is stored on the matching row. -/
def update_article_as_processed (db : List ProcRow) (article_id : Nat)
    (analysis_data : AnalysisResult) : List ProcRow :=
  let is_processed_value := if analysis_data.is_relevant then 1 else 2
  db.map fun r =>
    if r.id = article_id then
      { r with isProcessed := is_processed_value, process_data := some analysis_data }
    else r

/-! ## Supporting lemmas -/

theorem countWhere_pos {α : Type} (p : α → Bool) (l : List α) :
    0 < countWhere p l ↔ ∃ a ∈ l, p a = true := by
  rw [countWhere, List.length_pos]
  constructor
  · intro h
    by_contra hc
    push_neg at hc
    exact h (List.filter_eq_nil_iff.mpr (fun a ha => by
      intro hp
      exact absurd hp (by simpa using hc a ha)))
  · rintro ⟨a, ha, hp⟩ hnil
    exact absurd hp ((List.filter_eq_nil_iff.mp hnil) a ha)

theorem is_article_exists_iff (db : List NewsItemRow) (h : String) :
    is_article_exists db h = true ↔ ∃ r ∈ db, r.hash_id = h := by
  simp [is_article_exists, countWhere_pos]

theorem check_exists_iff (db : List NewsItemRow) (title url : String) :
    check_article_exists_in_db (dbCountByUrl db) (dbCountByTitle db) title url
        = true ↔
      (∃ r ∈ db, r.url = url) ∨ (∃ r ∈ db, r.title = title) := by
  simp only [check_article_exists_in_db, dbCountByUrl, dbCountByTitle]
  by_cases hu : 0 < countWhere (fun r => r.url == url) db
  · rw [if_pos hu]
    simp only [true_iff]
    rw [countWhere_pos] at hu
    obtain ⟨r, hr, hp⟩ := hu
    exact Or.inl ⟨r, hr, by simpa using hp⟩
  · rw [if_neg hu]
    rw [decide_eq_true_eq, countWhere_pos]
    constructor
    · rintro ⟨r, hr, hp⟩
      exact Or.inr ⟨r, hr, by simpa using hp⟩
    · rintro (⟨r, hr, hp⟩ | ⟨r, hr, hp⟩)
      · exact absurd (countWhere_pos _ _ |>.mpr ⟨r, hr, by simpa using hp⟩) hu
      · exact ⟨r, hr, by simpa using hp⟩

theorem length_pos_of_ne_empty (s : String) (h : s ≠ "") : 0 < s.length := by
  cases s with
  | mk data =>
    cases data with
    | nil => exact absurd rfl h
    | cons c t => simp [String.length]

/-! ## Claim theorems -/

/-- Claim C3: the dedup pre-check reports existing iff a stored record with
an equal url exists or a stored record with an equal title exists; a second
check of an inserted `(title, url)` pair yields `true`, and checking the
same title with any other url also yields `true` (persistence lookups
modelled as succeeding). -/
theorem dedup_rule_iff (db : List NewsItemRow) (title url hh url2 : String) :
    (check_article_exists_in_db (dbCountByUrl db) (dbCountByTitle db) title url
        = true ↔
      (∃ r ∈ db, r.url = url) ∨ (∃ r ∈ db, r.title = title)) ∧
    check_article_exists_in_db (dbCountByUrl (db ++ [⟨title, url, hh⟩]))
      (dbCountByTitle (db ++ [⟨title, url, hh⟩])) title url = true ∧
    check_article_exists_in_db (dbCountByUrl (db ++ [⟨title, url, hh⟩]))
      (dbCountByTitle (db ++ [⟨title, url, hh⟩])) title url2 = true := by
  refine ⟨check_exists_iff db title url, ?_, ?_⟩
  · rw [check_exists_iff]
    exact Or.inl ⟨⟨title, url, hh⟩, by simp, rfl⟩
  · rw [check_exists_iff]
    exact Or.inr ⟨⟨title, url, hh⟩, by simp, rfl⟩

/-- Claim C8: the freshness predicate accepts a recovered timestamp iff it
is at most 24 hours (86400 seconds) before `now`; a timestamp 24h01m old
(86460 s) is rejected, one 23h59m old (86340 s) is accepted, and a missing
timestamp is rejected. -/
theorem freshness_window_iff (nowSec : Int) :
    (∀ t : Int, is_within_24_hours nowSec (some t) = true ↔
        nowSec - t ≤ 86400) ∧
    is_within_24_hours nowSec none = false ∧
    is_within_24_hours nowSec (some (nowSec - 86460)) = false ∧
    is_within_24_hours nowSec (some (nowSec - 86340)) = true := by
  refine ⟨fun t => ?_, rfl, ?_, ?_⟩
  · simp [is_within_24_hours]
  · simp only [is_within_24_hours, decide_eq_false_iff_not]
    omega
  · simp only [is_within_24_hours, decide_eq_true_eq]
    omega

/-- Claim C9: when a persistence lookup raises, the dedup pre-check returns
`exists = false` (fails open) instead of propagating the error — whether the
url lookup raises, or the url lookup finds nothing and the title lookup
raises. -/
theorem dedup_fails_open (countByTitle : String → Option Nat)
    (title url : String) :
    check_article_exists_in_db (fun _ => none) countByTitle title url = false ∧
    check_article_exists_in_db (fun _ => some 0) (fun _ => none) title url
      = false := by
  exact ⟨rfl, rfl⟩

/-- Claim C10: the fingerprint is a digest of the separator-less
concatenation `title + url`, hence a function of that concatenation only:
the distinct pairs `("ab", "c")` and `("a", "bc")` collide, and after
attempting to save the first, saving the second is rejected by the
hash backstop in `save_article_to_db` (for every digest function and every
prior table state). -/
theorem fingerprint_collision (md5hex : ByteArray → String)
    (db : List NewsItemRow) :
    generate_article_hash md5hex "ab" "c" = generate_article_hash md5hex "a" "bc" ∧
    (("ab", "c") : String × String) ≠ ("a", "bc") ∧
    (save_article_to_db md5hex (save_article_to_db md5hex db "ab" "c").1
      "a" "bc").2 = false := by
  have hcat : ("ab" ++ "c" : String) = "a" ++ "bc" := rfl
  have hh : generate_article_hash md5hex "ab" "c"
      = generate_article_hash md5hex "a" "bc" := by
    unfold generate_article_hash
    rw [hcat]
  refine ⟨hh, by decide, ?_⟩
  by_cases hex : is_article_exists db (generate_article_hash md5hex "ab" "c")
      = true
  · have h1 : (save_article_to_db md5hex db "ab" "c").1 = db := by
      simp [save_article_to_db, hex]
    rw [h1]
    simp [save_article_to_db, ← hh, hex]
  · have h1 : (save_article_to_db md5hex db "ab" "c").1
        = db ++ [⟨"ab", "c", generate_article_hash md5hex "ab" "c"⟩] := by
      simp [save_article_to_db, hex]
    rw [h1]
    have hmem : is_article_exists
        (db ++ [⟨"ab", "c", generate_article_hash md5hex "ab" "c"⟩])
        (generate_article_hash md5hex "ab" "c") = true := by
      rw [is_article_exists_iff]
      exact ⟨⟨"ab", "c", generate_article_hash md5hex "ab" "c"⟩, by simp, rfl⟩
    simp [save_article_to_db, ← hh, hmem]

/-- Claim C7: on the success path, Stage 1 decides `isRelevant = false` iff
the model response contains at least one denylisted category keyword, and
`isRelevant = true` iff it contains none — a pure keyword veto defaulting to
relevant; and `check_article_relevance` applies exactly this decision to the
oracle's response. -/
theorem relevance_keyword_veto (oracle : String → String)
    (article_content article_title t : String) :
    (relevance_decision t = false ↔
      ∃ k ∈ non_relevant_keywords, strContains t k = true) ∧
    (relevance_decision t = true ↔
      ∀ k ∈ non_relevant_keywords, strContains t k = false) ∧
    (check_article_relevance oracle article_content article_title).1.1 =
      relevance_decision
        (oracle (relevance_prompt article_title (article_content.take 2000))) := by
  refine ⟨?_, ?_, rfl⟩
  · simp [relevance_decision, List.any_eq_true]
  · simp [relevance_decision, List.any_eq_false]

/-- Claim C4: the Stage-2 quality gate passes iff the research result
contains a source-citation marker, is not under 150 characters, and does not
contain the "nothing found" marker; on gate failure `research_topic` makes
exactly one retry call whose result is returned without being re-checked,
and on success no retry call is made (the call log has one entry on success,
two on failure, never more). -/
theorem research_gate_single_retry (oracle : String → String)
    (main_topic article_summary r : String) :
    (verify_research_quality r = true ↔
      ((∃ k ∈ quality_indicators, strContains r k = true) ∧
        150 ≤ r.length ∧ strContains r "לא מצאתי" = false)) ∧
    (research_topic oracle main_topic article_summary =
      if verify_research_quality (oracle (research_prompt main_topic article_summary)) then
        (oracle (research_prompt main_topic article_summary),
         [research_prompt main_topic article_summary])
      else
        (oracle (research_retry_prompt main_topic),
         [research_prompt main_topic article_summary,
          research_retry_prompt main_topic])) ∧
    (research_topic oracle main_topic article_summary).2.length ≤ 2 := by
  have heq : research_topic oracle main_topic article_summary =
      if verify_research_quality (oracle (research_prompt main_topic article_summary)) then
        (oracle (research_prompt main_topic article_summary),
         [research_prompt main_topic article_summary])
      else
        (oracle (research_retry_prompt main_topic),
         [research_prompt main_topic article_summary,
          research_retry_prompt main_topic]) := rfl
  refine ⟨?_, heq, ?_⟩
  · simp only [verify_research_quality, Bool.and_eq_true, Bool.not_eq_true',
      decide_eq_false_iff_not, Nat.not_lt, List.any_eq_true, and_assoc]
  · rw [heq]
    split <;> simp

/-- The truncation/placeholder tail of the cleaner: its output is non-empty
and at most 1003 characters, whatever string reaches it. -/
theorem cleanFinal_bounds (c3 : String) :
    0 < (if (if 1000 < c3.length then String.mk (c3.data.take 1000) ++ "..."
             else c3) = ""
         then "תוכן זמין בקישור המקורי"
         else (if 1000 < c3.length then String.mk (c3.data.take 1000) ++ "..."
               else c3)).length ∧
    (if (if 1000 < c3.length then String.mk (c3.data.take 1000) ++ "..."
         else c3) = ""
     then "תוכן זמין בקישור המקורי"
     else (if 1000 < c3.length then String.mk (c3.data.take 1000) ++ "..."
           else c3)).length ≤ 1003 := by
  by_cases h1 : 1000 < c3.length
  · rw [if_pos h1]
    have hlen : (String.mk (c3.data.take 1000) ++ "...").length = 1003 := by
      rw [String.length_append]
      have h2 : (String.mk (c3.data.take 1000)).length = 1000 := by
        show (c3.data.take 1000).length = 1000
        rw [List.length_take]
        have : c3.length = c3.data.length := rfl
        omega
      rw [h2]
      rfl
    have hne : String.mk (c3.data.take 1000) ++ "..." ≠ "" := by
      intro he
      have := congrArg String.length he
      rw [hlen] at this
      exact absurd this (by decide)
    rw [if_neg hne, hlen]
    exact ⟨by omega, by omega⟩
  · rw [if_neg h1]
    by_cases h2 : c3 = ""
    · rw [if_pos h2]
      exact ⟨by decide, by decide⟩
    · rw [if_neg h2]
      exact ⟨length_pos_of_ne_empty c3 h2, by omega⟩

/-- Claim C5: for every input and every behavior of the regex-substitution
phases, the content cleaner returns a non-empty string of length at most
1000 plus the 3-character ellipsis marker. -/
theorem cleaner_bounds (subForum subFinal : String → String)
    (content : String) :
    0 < (clean_article_content subForum subFinal content).length ∧
    (clean_article_content subForum subFinal content).length ≤ 1003 := by
  simp only [clean_article_content]
  by_cases h0 : content = ""
  · rw [if_pos h0]
    exact ⟨by decide, by decide⟩
  · rw [if_neg h0]
    exact cleanFinal_bounds _

/-- Claim C6: whenever the combined `DD.MM.YY HH:MM` search succeeds on the
row text and the matched numbers form a valid datetime, recovery returns
exactly that day, month, hour and minute with year `2000 + YY`, for every
value of the wall clock — so the combined strategy pre-empts the
separate-date-and-time, date-only and time-only strategies. -/
theorem combined_datetime_priority (now : PyDateTime) (s : String)
    (d m y h mi : Nat) (dt : PyDateTime)
    (hsearch : searchCombined s.data = some (d, m, y, h, mi))
    (hvalid : mkDatetime (2000 + y) m d h mi = some dt) :
    extract_actual_datetime_from_row now s = some dt ∧
      dt.year = 2000 + y ∧ dt.month = m ∧ dt.day = d ∧ dt.hour = h ∧
      dt.minute = mi := by
  have hfields : dt = ⟨2000 + y, m, d, h, mi, 0⟩ := by
    unfold mkDatetime at hvalid
    split at hvalid
    · exact (Option.some.inj hvalid).symm
    · exact absurd hvalid (by simp)
  refine ⟨?_, by rw [hfields], by rw [hfields], by rw [hfields],
    by rw [hfields], by rw [hfields]⟩
  have hb : (searchCombined s.data).bind
      (fun x => match x with
        | (d, m, y, h, mi) => mkDatetime (2000 + y) m d h mi) = some dt := by
    rw [hsearch]
    exact hvalid
  simp only [extract_actual_datetime_from_row]
  rw [hb]

/-- Witness for C6 at the row text `"חדשות 1.2.25 3:45 טקסט"`. -/
theorem combined_datetime_priority_witness :
    searchCombined ("חדשות 1.2.25 3:45 טקסט" : String).data
        = some (1, 2, 25, 3, 45) ∧
    mkDatetime (2000 + 25) 2 1 3 45 = some ⟨2025, 2, 1, 3, 45, 0⟩ ∧
    extract_actual_datetime_from_row ⟨2026, 1, 1, 0, 0, 0⟩
        "חדשות 1.2.25 3:45 טקסט" = some ⟨2025, 2, 1, 3, 45, 0⟩ :=
  ⟨by decide, by decide,
   (combined_datetime_priority ⟨2026, 1, 1, 0, 0, 0⟩ _ 1 2 25 3 45 _
      (by decide) (by decide)).1⟩

/-- Claim C2: if the Stage-1 response marks the item not relevant, the
pipeline halts after Stage 1 — the only model call made is the relevance
prompt, the analysis result carries no research findings, technical
analysis or final article, and persisting it stores processing state 2
(NotRelevant) on the article's row. -/
theorem notrelevant_halts_pipeline (oracle : String → String)
    (now article_content article_title : String) (db : List ProcRow)
    (article_id : Nat)
    (h : (check_article_relevance oracle article_content article_title).1.1
      = false) :
    (analyze_article_with_anthropic oracle now article_content
        article_title).1.is_relevant = false ∧
    (analyze_article_with_anthropic oracle now article_content
        article_title).1.technical_analysis = none ∧
    (analyze_article_with_anthropic oracle now article_content
        article_title).1.journalistic_article = none ∧
    (analyze_article_with_anthropic oracle now article_content
        article_title).1.research_notes = none ∧
    (analyze_article_with_anthropic oracle now article_content
        article_title).2 =
      [relevance_prompt article_title (article_content.take 2000)] ∧
    (update_article_as_processed db article_id
        (analyze_article_with_anthropic oracle now article_content
          article_title).1).all
      (fun r => (r.id != article_id) || (r.isProcessed == 2)) = true := by
  have hres : analyze_article_with_anthropic oracle now article_content
      article_title =
      ({ analysis := some ⟨false,
           (check_article_relevance oracle article_content article_title).1.2,
           "non-political"⟩,
         technical_analysis := none,
         journalistic_article := none,
         research_notes := none,
         model_used := "claude-3-haiku-20240307",
         processed_at := now,
         is_relevant := false },
       (check_article_relevance oracle article_content article_title).2) := by
    simp only [analyze_article_with_anthropic]
    rw [h]
    rfl
  rw [hres]
  refine ⟨rfl, rfl, rfl, rfl, rfl, ?_⟩
  rw [List.all_eq_true]
  intro r hr
  rw [update_article_as_processed] at hr
  simp only [List.mem_map] at hr
  obtain ⟨r0, hr0, rfl⟩ := hr
  by_cases hid : r0.id = article_id
  · rw [if_pos hid]
    simp
  · rw [if_neg hid]
    simp [hid]

/-- Witness for C2: an oracle answering `"ספורט"` on a concrete article and
a one-row table. -/
theorem notrelevant_halts_pipeline_witness :
    ((check_article_relevance (fun _ => "ספורט") "תוכן הכתבה" "כותרת").1.1
      = false) ∧
    ((analyze_article_with_anthropic (fun _ => "ספורט") "2025-01-01T00:00:00"
        "תוכן הכתבה" "כותרת").1.is_relevant = false ∧
     (analyze_article_with_anthropic (fun _ => "ספורט") "2025-01-01T00:00:00"
        "תוכן הכתבה" "כותרת").1.technical_analysis = none ∧
     (analyze_article_with_anthropic (fun _ => "ספורט") "2025-01-01T00:00:00"
        "תוכן הכתבה" "כותרת").1.journalistic_article = none ∧
     (analyze_article_with_anthropic (fun _ => "ספורט") "2025-01-01T00:00:00"
        "תוכן הכתבה" "כותרת").1.research_notes = none ∧
     (analyze_article_with_anthropic (fun _ => "ספורט") "2025-01-01T00:00:00"
        "תוכן הכתבה" "כותרת").2 =
       [relevance_prompt "כותרת" (("תוכן הכתבה" : String).take 2000)] ∧
     (update_article_as_processed [⟨7, 0, none⟩] 7
         (analyze_article_with_anthropic (fun _ => "ספורט")
           "2025-01-01T00:00:00" "תוכן הכתבה" "כותרת").1).all
       (fun r => (r.id != 7) || (r.isProcessed == 2)) = true) :=
  ⟨by decide,
   notrelevant_halts_pipeline (fun _ => "ספורט") "2025-01-01T00:00:00"
     "תוכן הכתבה" "כותרת" [⟨7, 0, none⟩] 7 (by decide)⟩

/-- A finalized batch item with a recovered timestamp. -/
def itemDated : FinalItem :=
  ⟨"a", "2025-10-11 10:00:00", "2025-10-11T10:00:00"⟩

/-- A finalized batch item whose timestamp could not be recovered. -/
def itemUnknown : FinalItem := ⟨"b", "Unknown", "Unknown"⟩

/-- Counterexample to claim C1 as stated: in the sorted batch the item with
the unrecoverable timestamp comes FIRST (as newest), before the item with a
recovered timestamp — not last as the claim says — because `'U'` (code 85)
compares above every digit under the descending string sort. -/
theorem batch_sort_unknown_first :
    sortStep [itemDated, itemUnknown] = [itemUnknown, itemDated] ∧
    itemUnknown.actual_datetime = "Unknown" ∧
    itemDated.actual_datetime ≠ "Unknown" ∧
    firstCharDigit itemDated.actual_datetime = true := by
  refine ⟨?_, rfl, by decide, by decide⟩
  have hcmp : sortKeyLe itemDated itemUnknown = false := by decide
  have hcmp2 : sortKeyLe itemUnknown itemDated = true := by decide
  simp [sortStep, List.mergeSort, List.merge, hcmp, hcmp2]

/-- Claim C1 (amended): the batch sort orders items descending by their
`actual_datetime` string, which for items with recovered timestamps is
descending chronological order (lexicographic comparison of the ISO strings
coincides with chronological comparison), while items with an unrecoverable
timestamp (`"Unknown"`) sort as NEWEST — every `"Unknown"` item precedes
every item with a recovered timestamp; finalized items always carry either
`"Unknown"` or a digit-initial ISO string. -/
theorem batch_sort_order (l : List FinalItem) (d1 d2 : PyDateTime)
    (apd mpd : Option PyDateTime)
    (hkeys : l.all (fun it => (it.actual_datetime == "Unknown") ||
        firstCharDigit it.actual_datetime) = true)
    (hb1 : dtBounded d1 = true) (hb2 : dtBounded d2 = true) :
    List.Pairwise (fun a b => sortKeyLe a b = true) (sortStep l) ∧
    List.Pairwise (fun a b => b.actual_datetime = "Unknown" →
      a.actual_datetime = "Unknown") (sortStep l) ∧
    (pyStrLe (isoformat d1).data (isoformat d2).data = true ↔
      dtToNat d1 ≤ dtToNat d2) ∧
    ((finalize_datetime apd mpd).2 = "Unknown" ∨
      firstCharDigit (finalize_datetime apd mpd).2 = true) := by
  have hsorted : List.Pairwise (fun a b => sortKeyLe a b = true)
      (sortStep l) :=
    List.sorted_mergeSort sortKeyLe_trans sortKeyLe_total l
  refine ⟨hsorted, ?_, pyStrLe_isoformat d1 d2 hb1 hb2, ?_⟩
  · refine hsorted.imp_of_mem ?_
    intro a b ha _ hr hbu
    have ha' : a ∈ l := by
      rw [sortStep, List.mem_mergeSort] at ha
      exact ha
    have hak := (List.all_eq_true.mp hkeys) a ha'
    rcases Bool.or_eq_true_iff.mp hak with hau | had
    · exact beq_iff_eq.mp hau
    · exfalso
      rw [sortKeyLe, hbu] at hr
      rw [unknown_not_le_digit a.actual_datetime had] at hr
      exact Bool.false_ne_true hr
  · cases apd with
    | some dt => exact Or.inr (firstCharDigit_isoformat dt)
    | none =>
      cases mpd with
      | some dt => exact Or.inr (firstCharDigit_isoformat dt)
      | none => exact Or.inl rfl

/-- Witness for the amended C1 on a concrete two-item batch and concrete
timestamps. -/
theorem batch_sort_order_witness :
    ([itemDated, itemUnknown].all (fun it =>
        (it.actual_datetime == "Unknown") ||
          firstCharDigit it.actual_datetime) = true) ∧
    dtBounded ⟨2025, 2, 1, 3, 45, 0⟩ = true ∧
    dtBounded ⟨2025, 2, 1, 4, 0, 0⟩ = true ∧
    (List.Pairwise (fun a b => sortKeyLe a b = true)
        (sortStep [itemDated, itemUnknown]) ∧
     List.Pairwise (fun a b => b.actual_datetime = "Unknown" →
        a.actual_datetime = "Unknown") (sortStep [itemDated, itemUnknown]) ∧
     (pyStrLe (isoformat ⟨2025, 2, 1, 3, 45, 0⟩).data
          (isoformat ⟨2025, 2, 1, 4, 0, 0⟩).data = true ↔
        dtToNat ⟨2025, 2, 1, 3, 45, 0⟩ ≤ dtToNat ⟨2025, 2, 1, 4, 0, 0⟩) ∧
     ((finalize_datetime none none).2 = "Unknown" ∨
        firstCharDigit (finalize_datetime none none).2 = true)) :=
  ⟨by decide, by decide, by decide,
   batch_sort_order [itemDated, itemUnknown] ⟨2025, 2, 1, 3, 45, 0⟩
     ⟨2025, 2, 1, 4, 0, 0⟩ none none (by decide) (by decide) (by decide)⟩
